import Mathlib

/-!
Verification of the Bulk Query Runner (scripts/bulk_test.py).

Shallow embedding of the bulk testing utility: the Query Source Reader
(`read_queries`), the per-record dispatch (`process_query`), the Runner
(`run_bulk_test` / `runQueries`), and the Result Sink (`write_results`).

Modelling conventions:
- A CSV row is a pair of optional strings (`Option String`); the Python
  truthiness test `row.get("id") and row.get("query")` is `truthy`, which
  holds exactly when the field is present and non-empty.
- The agent client `get_agent_response` (external collaborator, lives in
  `backend/utils.py`) is an opaque parameter of type `Adapter`: it either
  returns an updated conversation (`Except.ok`) or raises a fault modelled
  as `Except.error` carrying the description of the fault (Python
  `repr(e)`).
- `process_query` mirrors the Python `try/except` body: the truthiness
  test `updated_history and updated_history[-1]["role"] == "assistant"`
  is rendered with `List.getLast?`, which is `none` exactly when the list
  is empty (so the emptiness test short-circuits before any indexing).
- `ThreadPoolExecutor(max_workers=n)` raises `ValueError` for `n <= 0`
  (CPython `concurrent/futures/thread.py`), and `executor.map` yields
  results in the order of its input iterable regardless of completion
  order.  The Runner is therefore `Except String`-valued: the constructor
  fault is `Except.error`, and the order-independence of the result
  aggregation of the thread pool is modelled separately by
  `runWithOrder`/`gather`, which executes the per-index tasks in an
  arbitrary completion order and writes each result into its
  input-position slot.
- File writes are modelled by returning the written artifacts: the JSON
  artifact as a JSON syntax tree and the CSV artifact as its list of rows,
  each paired with its path (`PathModel`, stem plus extension, with
  `with_suffix` mirroring `pathlib.Path.with_suffix`).
-/

namespace BulkTest

/-- One turn of a conversation: a role string and a content string. -/
structure Turn where
  role : String
  content : String
deriving DecidableEq, Repr

/-- One CSV row as produced by `csv.DictReader`: each named field is either
absent (`none`) or a string (possibly empty). -/
structure Row where
  id : Option String
  query : Option String
deriving DecidableEq, Repr

/-- A query record after the filter of the Reader: non-empty id and query. -/
structure QueryRecord where
  id : String
  query : String
deriving DecidableEq, Repr

/-- One result triple `(id, query, response)` as returned by `process_query`
and serialized by `write_results`. -/
structure ResultRecord where
  id : String
  query : String
  response : String
deriving DecidableEq, Repr

/-- Python truthiness of `row.get(key)`: false for a missing key (`None`)
and for the empty string, true otherwise. -/
def truthy : Option String → Bool
  | none => false
  | some s => !(s == "")

/-- `read_queries` (bulk_test.py lines 41-49) modulo file I/O: the CSV rows
are the input and the list comprehension
`[row for row in reader if row.get("id") and row.get("query")]` is a
filter. -/
def read_queries (rows : List Row) : List Row :=
  rows.filter (fun row => truthy row.id && truthy row.query)

/-- `item["id"]` on a row that passed the filter (the key is then present
and non-empty, so the default is never taken). -/
def rowId (r : Row) : String := r.id.getD ""

/-- `item["query"]` on a row that passed the filter. -/
def rowQuery (r : Row) : String := r.query.getD ""

/-- The agent client `get_agent_response`: opaque, possibly raising.
`Except.error e` models a raised exception whose `repr` is `e`. -/
def Adapter : Type := List Turn → Except String (List Turn)

/-- `initial_messages = [{"role": "user", "content": query}]`
(bulk_test.py line 55). -/
def initial_messages (query : String) : List Turn :=
  [{ role := "user", content := query }]

/-- `process_query` (bulk_test.py lines 52-66): build the one-turn
conversation, call the adapter, classify the outcome; any raised fault is
caught and rendered as `"Error: "` followed by its `repr`.  `List.getLast?`
renders the Python guard
`updated_history and updated_history[-1]["role"] == "assistant"`:
it is `none` exactly when the history is empty. -/
def process_query (get_agent_response : Adapter) (query_id query : String) :
    ResultRecord :=
  match get_agent_response (initial_messages query) with
  | Except.error e =>
    { id := query_id, query := query, response := "Error: " ++ e }
  | Except.ok updated_history =>
    match updated_history.getLast? with
    | some lastTurn =>
      if lastTurn.role = "assistant" then
        { id := query_id, query := query, response := lastTurn.content }
      else
        { id := query_id, query := query,
          response := "Error: No assistant reply found" }
    | none =>
      { id := query_id, query := query,
        response := "Error: No assistant reply found" }

/-- The Runner core (bulk_test.py lines 116-124) on the already-read
records: `actual_workers = min(num_workers, len(queries))`, then
`ThreadPoolExecutor(max_workers=actual_workers)` — which raises
`ValueError` when `actual_workers <= 0`, since CPython rejects a
non-positive `max_workers` — then `list(executor.map(...))`, which yields
one `process_query` result per record in input order. -/
def runQueries (A : Adapter) (records : List QueryRecord)
    (num_workers : Int) : Except String (List ResultRecord) :=
  let actual_workers := min num_workers (records.length : Int)
  if actual_workers ≤ 0 then
    Except.error "max_workers must be greater than 0"
  else
    Except.ok (records.map (fun item => process_query A item.id item.query))

/-- `run_bulk_test` (bulk_test.py lines 111-134) modulo console rendering
and file I/O: read the rows, then run the thread-pool dispatch. -/
def run_bulk_test (A : Adapter) (rows : List Row) (num_workers : Int) :
    Except String (List ResultRecord) :=
  let queries := read_queries rows
  runQueries A
    (queries.map (fun item => { id := rowId item, query := rowQuery item }))
    num_workers

/-- Placeholder record used only as a `getD` default when indexing. -/
def dummyRecord : QueryRecord := { id := "", query := "" }

/-- Placeholder result used only as a `getD` default when indexing. -/
def dfltResult : ResultRecord := { id := "", query := "", response := "" }

/-- Completion-order model of the aggregation of the thread pool: writing
the result of task `j` into slot `j` of an index-keyed slot table. -/
def writeSlot (slots : Nat → Option ResultRecord) (j : Nat)
    (v : ResultRecord) : Nat → Option ResultRecord :=
  fun k => if k = j then some v else slots k

/-- The unit of work for input position `j`: dispatch record `j`. -/
def dispatchTask (A : Adapter) (records : List QueryRecord) (j : Nat) :
    ResultRecord :=
  process_query A (records.getD j dummyRecord).id
    (records.getD j dummyRecord).query

/-- Execute the per-index tasks in the completion order `order`, each task
writing its result into its own input-position slot. -/
def runWithOrder (f : Nat → ResultRecord) (order : List Nat) :
    Nat → Option ResultRecord :=
  order.foldl (fun slots j => writeSlot slots j (f j)) (fun _ => none)

/-- Read the slot table back in input-position order. -/
def gather (slots : Nat → Option ResultRecord) (n : Nat) :
    List (Option ResultRecord) :=
  (List.range n).map slots

/-- JSON values, as far as the structured-record artifact needs them. -/
inductive Json where
  | str (s : String)
  | arr (elems : List Json)
  | obj (fields : List (String × Json))

/-- One entry of `json_data` (bulk_test.py lines 91-94):
`{"id": result[0], "query": result[1], "response": result[2]}`. -/
def recordToJson (r : ResultRecord) : Json :=
  Json.obj [("id", Json.str r.id), ("query", Json.str r.query),
    ("response", Json.str r.response)]

/-- The structured-record artifact written by `json.dump` (line 97):
the array of per-record objects, order preserved. -/
def json_dump (results : List ResultRecord) : Json :=
  Json.arr (results.map recordToJson)

/-- Field lookup in a JSON object. -/
def getField (fields : List (String × Json)) (key : String) : Option Json :=
  (fields.find? (fun p => p.fst == key)).map Prod.snd

/-- Modelled from the spec: re-reading one entry of the structured-record
artifact (the repository has no reader for its own output; the round-trip
property in section 8 of the spec implies a standard JSON read of the
`id`, `query`, `response` string fields). -/
def readEntry : Json → Option (String × String × String)
  | Json.obj fields =>
    match getField fields "id", getField fields "query",
        getField fields "response" with
    | some (Json.str i), some (Json.str q), some (Json.str r) =>
      some (i, q, r)
    | _, _, _ => none
  | _ => none

/-- Modelled from the spec: re-reading a list of artifact entries, failing
if any entry is malformed. -/
def readEntries : List Json → Option (List (String × String × String))
  | [] => some []
  | j :: rest =>
    match readEntry j, readEntries rest with
    | some t, some ts => some (t :: ts)
    | _, _ => none

/-- Modelled from the spec: re-reading the structured-record artifact as
the ordered sequence of `(id, query, response)` triples. -/
def readJsonResults : Json → Option (List (String × String × String))
  | Json.arr elems => readEntries elems
  | _ => none

/-- A file path split into everything-before-the-extension and the
extension, so that `pathlib.Path.with_suffix` is expressible. -/
structure PathModel where
  stem : String
  suffix : String
deriving DecidableEq, Repr

/-- `pathlib.Path.with_suffix`: same logical path, replaced extension. -/
def with_suffix (p : PathModel) (s : String) : PathModel :=
  { stem := p.stem, suffix := s }

/-- Everything `write_results` puts on disk. -/
structure WrittenArtifacts where
  jsonPath : PathModel
  jsonData : Json
  csvPath : PathModel
  csvRows : List (List String)

/-- `write_results` (bulk_test.py lines 85-104) modulo file I/O: the JSON
artifact at `output_path`, and the CSV artifact at
`output_path.with_suffix(".csv")` with the header row followed by one row
per result, in batch order. -/
def write_results (output_path : PathModel)
    (results : List ResultRecord) : WrittenArtifacts :=
  { jsonPath := output_path
    jsonData := json_dump results
    csvPath := with_suffix output_path ".csv"
    csvRows := ["id", "query", "response"] ::
      results.map (fun r => [r.id, r.query, r.response]) }

/-- Concrete adapter whose reply always ends in an assistant turn. -/
def wAdapterOk : Adapter := fun _ => Except.ok [⟨"assistant", "ok"⟩]

/-- Concrete adapter whose reply ends in a user turn. -/
def wAdapterUser : Adapter := fun _ => Except.ok [⟨"user", "echo"⟩]

/-- Concrete adapter returning an empty conversation. -/
def wAdapterEmpty : Adapter := fun _ => Except.ok []

/-- Concrete adapter raising exactly on the conversation built from the
query "a" and succeeding elsewhere. -/
def wAdapterFault : Adapter := fun conv =>
  if conv = initial_messages "a" then Except.error "boom"
  else Except.ok [⟨"assistant", "hi"⟩]

/-- Concrete adapter succeeding on every conversation. -/
def wAdapterB : Adapter := fun _ => Except.ok [⟨"assistant", "hi"⟩]

/-- Concrete two-record batch. -/
def wRecords : List QueryRecord :=
  [⟨"1", "vegan breakfast"⟩, ⟨"2", "gluten free lunch"⟩]

/-- Concrete two-record batch whose first query triggers `wAdapterFault`. -/
def w2Records : List QueryRecord := [⟨"1", "a"⟩, ⟨"2", "b"⟩]

/-- Concrete output path in the shape `run_bulk_test` produces. -/
def wPath : PathModel :=
  { stem := "results/results_20240101_120000", suffix := ".json" }

/-- Concrete one-record result batch. -/
def wResults : List ResultRecord := [⟨"1", "q", "r"⟩]

theorem foldl_writeSlot (f : Nat → ResultRecord) (order : List Nat)
    (init : Nat → Option ResultRecord) (j : Nat) :
    (order.foldl (fun slots i => writeSlot slots i (f i)) init) j
      = if j ∈ order then some (f j) else init j := by
  induction order generalizing init with
  | nil => simp
  | cons o os ih =>
    simp only [List.foldl_cons, ih, List.mem_cons, writeSlot]
    by_cases hj : j ∈ os
    · simp [hj]
    · by_cases hjo : j = o
      · subst hjo
        simp [hj]
      · simp [hj, hjo]

theorem runWithOrder_eq (f : Nat → ResultRecord) (order : List Nat) (j : Nat)
    (h : j ∈ order) : runWithOrder f order j = some (f j) := by
  unfold runWithOrder
  rw [foldl_writeSlot]
  simp [h]

theorem gather_complete (f : Nat → ResultRecord) (order : List Nat) (n : Nat)
    (h : ∀ j ∈ List.range n, j ∈ order) :
    gather (runWithOrder f order) n
      = (List.range n).map (fun j => some (f j)) := by
  unfold gather
  exact List.map_congr_left (fun j hj => runWithOrder_eq f order j (h j hj))

theorem range_map_getD (l : List QueryRecord) (d : QueryRecord) :
    (List.range l.length).map (fun i => l.getD i d) = l := by
  induction l with
  | nil => simp
  | cons a l ih =>
    simp only [List.length_cons, List.range_succ_eq_map, List.map_cons,
      List.map_map]
    refine congrArg (a :: ·) ?_
    have hfun : ((fun i => (a :: l).getD i d) ∘ Nat.succ)
        = (fun i => l.getD i d) := by
      funext i
      simp [Function.comp]
    rw [hfun, ih]

theorem range_map_getD_comp (l : List QueryRecord) (d : QueryRecord)
    (h : QueryRecord → Option ResultRecord) :
    (List.range l.length).map (fun i => h (l.getD i d)) = l.map h := by
  rw [show (fun i => h (l.getD i d)) = h ∘ (fun i => l.getD i d) from rfl,
    ← List.map_map, range_map_getD]

theorem getD_map (l : List QueryRecord) (f : QueryRecord → ResultRecord)
    (i : Nat) (d : ResultRecord) (d0 : QueryRecord) (h : i < l.length) :
    (l.map f).getD i d = f (l.getD i d0) := by
  induction l generalizing i with
  | nil => simp at h
  | cons a l ih =>
    cases i with
    | zero => simp
    | succ i =>
      simp only [List.map_cons, List.getD_cons_succ]
      exact ih i (by simpa using h)

theorem process_query_id (A : Adapter) (query_id query : String) :
    (process_query A query_id query).id = query_id := by
  cases hA : A (initial_messages query) with
  | error e => simp [process_query, hA]
  | ok h =>
    cases hL : h.getLast? with
    | none => simp [process_query, hA, hL]
    | some t =>
      by_cases hr : t.role = "assistant" <;> simp [process_query, hA, hL, hr]

theorem process_query_query (A : Adapter) (query_id query : String) :
    (process_query A query_id query).query = query := by
  cases hA : A (initial_messages query) with
  | error e => simp [process_query, hA]
  | ok h =>
    cases hL : h.getLast? with
    | none => simp [process_query, hA, hL]
    | some t =>
      by_cases hr : t.role = "assistant" <;> simp [process_query, hA, hL, hr]

theorem process_query_fault (A : Adapter) (query_id query e : String)
    (h : A (initial_messages query) = Except.error e) :
    process_query A query_id query
      = { id := query_id, query := query, response := "Error: " ++ e } := by
  simp [process_query, h]

theorem min_pos_of_pos (a b : Int) (ha : 0 < a) (hb : 0 < b) :
    ¬ (min a b ≤ 0) := by
  omega

/-- C1 (amended to non-empty inputs): for every adapter behaviour, every
non-empty record list and every positive worker budget, the Runner returns
a batch of the same length whose record at index i carries the id of input
record i; and for every completion order of the dispatch tasks that covers
all input positions, the index-keyed slot aggregation reproduces exactly
that batch, so the result is independent of completion order and of
per-dispatch success or failure. -/
theorem runner_positional_alignment (A : Adapter) (records : List QueryRecord)
    (num_workers : Int) (order : List Nat)
    (hne : records ≠ [])
    (hpos : 0 < num_workers)
    (hord : ∀ j ∈ List.range records.length, j ∈ order) :
    ∃ batch, runQueries A records num_workers = Except.ok batch ∧
      batch.length = records.length ∧
      batch.map ResultRecord.id = records.map QueryRecord.id ∧
      gather (runWithOrder (dispatchTask A records) order) records.length
        = batch.map some := by
  have hlen : (0 : Int) < (records.length : Int) := by
    exact_mod_cast List.length_pos.mpr hne
  refine ⟨records.map (fun item => process_query A item.id item.query),
    ?_, ?_, ?_, ?_⟩
  · simp only [runQueries]
    rw [if_neg (min_pos_of_pos _ _ hpos hlen)]
  · simp
  · rw [List.map_map]
    exact List.map_congr_left
      (fun item _ => process_query_id A item.id item.query)
  · rw [gather_complete _ order _ hord, List.map_map]
    exact range_map_getD_comp records dummyRecord
      (fun item => some (process_query A item.id item.query))

/-- Witness for C1: two records, budget 2, completion order reversed. -/
theorem runner_positional_alignment_witness :
    ∃ batch, runQueries wAdapterOk wRecords 2 = Except.ok batch ∧
      batch.length = wRecords.length ∧
      batch.map ResultRecord.id = wRecords.map QueryRecord.id ∧
      gather (runWithOrder (dispatchTask wAdapterOk wRecords) [1, 0])
          wRecords.length = batch.map some :=
  runner_positional_alignment wAdapterOk wRecords 2 [1, 0] (by decide)
    (by decide) (by decide)

/-- Counterexample to C1 as stated over every input sequence: at the empty
record list (with positive budget 3) the Runner does not return a
ResultBatch at all — `min(3, 0) = 0` makes the thread-pool constructor
raise ValueError — so no batch of length 0 is returned. -/
theorem runner_alignment_fails_on_empty :
    ¬ ∃ batch : List ResultRecord,
      runQueries wAdapterOk [] 3 = Except.ok batch := by
  rintro ⟨batch, hb⟩
  have hrun : runQueries wAdapterOk [] 3
      = Except.error "max_workers must be greater than 0" := rfl
  rw [hrun] at hb
  exact Except.noConfusion hb

/-- C2: on the empty record list the effective concurrency is
`min(budget, 0) = 0`, but instead of returning an empty batch the code
passes 0 to `ThreadPoolExecutor(max_workers=...)`, which raises
ValueError: the run crashes before any adapter invocation.  Evaluated here
both at the record level and on an empty CSV row list. -/
theorem runner_empty_raises_value_error :
    runQueries wAdapterOk [] 5
      = Except.error "max_workers must be greater than 0" ∧
    run_bulk_test wAdapterOk [] 5
      = Except.error "max_workers must be greater than 0" := ⟨rfl, rfl⟩

/-- C3: if the adapter raises fault `e` on the conversation of record i,
the Runner still returns a batch (the fault does not propagate), the
response of record i is the string "Error: " followed by the fault
description — in particular it has prefix "Error:" — and every sibling
result is unchanged when the behaviour of the adapter on the sibling
conversations is kept fixed (adapter `B` agreeing with `A` off record i
produces identical sibling results). -/
theorem fault_isolation (A B : Adapter) (records : List QueryRecord)
    (num_workers : Int) (i : Nat) (e : String)
    (hi : i < records.length)
    (hpos : 0 < num_workers)
    (hfault : A (initial_messages (records.getD i dummyRecord).query)
      = Except.error e)
    (hagree : ∀ j ∈ List.range records.length, j ≠ i →
      B (initial_messages (records.getD j dummyRecord).query)
        = A (initial_messages (records.getD j dummyRecord).query)) :
    ∃ batchA batchB,
      runQueries A records num_workers = Except.ok batchA ∧
      runQueries B records num_workers = Except.ok batchB ∧
      (batchA.getD i dfltResult).response = "Error: " ++ e ∧
      (∃ rest, (batchA.getD i dfltResult).response = "Error:" ++ rest) ∧
      (∀ j ∈ List.range records.length, j ≠ i →
        batchA.getD j dfltResult = batchB.getD j dfltResult) := by
  have hlen : (0 : Int) < (records.length : Int) := by
    exact_mod_cast Nat.lt_of_le_of_lt (Nat.zero_le i) hi
  have hresp : (process_query A (records.getD i dummyRecord).id
      (records.getD i dummyRecord).query).response = "Error: " ++ e := by
    rw [process_query_fault A _ _ e hfault]
  refine ⟨records.map (fun item => process_query A item.id item.query),
    records.map (fun item => process_query B item.id item.query),
    ?_, ?_, ?_, ?_, ?_⟩
  · simp only [runQueries]
    rw [if_neg (min_pos_of_pos _ _ hpos hlen)]
  · simp only [runQueries]
    rw [if_neg (min_pos_of_pos _ _ hpos hlen)]
  · rw [getD_map records _ i dfltResult dummyRecord hi]
    exact hresp
  · rw [getD_map records _ i dfltResult dummyRecord hi, hresp]
    refine ⟨" " ++ e, ?_⟩
    rw [← String.append_assoc]
    rfl
  · intro j hj hji
    have hjlen : j < records.length := List.mem_range.mp hj
    rw [getD_map records _ j dfltResult dummyRecord hjlen,
      getD_map records _ j dfltResult dummyRecord hjlen]
    unfold process_query
    rw [hagree j hj hji]

/-- Witness for C3: a two-record batch whose first dispatch raises. -/
theorem fault_isolation_witness :
    ∃ batchA batchB,
      runQueries wAdapterFault w2Records 1 = Except.ok batchA ∧
      runQueries wAdapterB w2Records 1 = Except.ok batchB ∧
      (batchA.getD 0 dfltResult).response = "Error: " ++ "boom" ∧
      (∃ rest, (batchA.getD 0 dfltResult).response = "Error:" ++ rest) ∧
      (∀ j ∈ List.range w2Records.length, j ≠ 0 →
        batchA.getD j dfltResult = batchB.getD j dfltResult) :=
  fault_isolation wAdapterFault wAdapterB w2Records 1 0 "boom"
    (by decide) (by decide) rfl
    (by
      intro j hj hji
      have hj2 : j < 2 := List.mem_range.mp hj
      interval_cases j
      · exact absurd rfl hji
      · rfl)

/-- C4: if the adapter returns a conversation whose final turn does not
have role assistant, the response is exactly the sentinel text. -/
theorem missing_assistant_sentinel (A : Adapter) (query_id query : String)
    (h : List Turn) (t : Turn)
    (hA : A (initial_messages query) = Except.ok h)
    (hlast : h.getLast? = some t)
    (hrole : t.role ≠ "assistant") :
    (process_query A query_id query).response
      = "Error: No assistant reply found" := by
  simp [process_query, hA, hlast, hrole]

/-- Witness for C4: a reply ending in a user turn yields the sentinel. -/
theorem missing_assistant_sentinel_witness :
    (process_query wAdapterUser "7" "dinner idea").response
      = "Error: No assistant reply found" :=
  missing_assistant_sentinel wAdapterUser "7" "dinner idea"
    [⟨"user", "echo"⟩] ⟨"user", "echo"⟩ rfl rfl (by decide)

/-- C5: if the adapter returns a conversation whose final turn has role
assistant, the response is the content of that final turn. -/
theorem assistant_reply_success (A : Adapter) (query_id query : String)
    (h : List Turn) (t : Turn)
    (hA : A (initial_messages query) = Except.ok h)
    (hlast : h.getLast? = some t)
    (hrole : t.role = "assistant") :
    (process_query A query_id query).response = t.content := by
  simp [process_query, hA, hlast, hrole]

/-- Witness for C5: a reply ending in an assistant turn is returned. -/
theorem assistant_reply_success_witness :
    (process_query wAdapterOk "7" "dinner idea").response = "ok" :=
  assistant_reply_success wAdapterOk "7" "dinner idea"
    [⟨"assistant", "ok"⟩] ⟨"assistant", "ok"⟩ rfl rfl rfl

/-- C6: the Reader keeps exactly the rows with non-empty id and non-empty
query — its output is a sublist of the input (relative order preserved),
membership is equivalent to passing both truthiness tests, and each row is
kept with full multiplicity when it passes and dropped entirely when it
does not; no error is possible since the Reader is a total function. -/
theorem read_queries_exact (rows : List Row) :
    (read_queries rows).Sublist rows ∧
    (∀ r : Row, r ∈ read_queries rows ↔
      (r ∈ rows ∧ truthy r.id = true ∧ truthy r.query = true)) ∧
    (∀ r : Row, (read_queries rows).count r
      = if truthy r.id && truthy r.query then rows.count r else 0) := by
  refine ⟨List.filter_sublist rows, ?_, ?_⟩
  · intro r
    simp [read_queries, List.mem_filter, Bool.and_eq_true, and_assoc]
  · intro r
    by_cases hp : (truthy r.id && truthy r.query) = true
    · rw [if_pos hp]
      exact List.count_filter hp
    · rw [if_neg hp]
      refine List.count_eq_zero.mpr ?_
      intro hmem
      exact hp ((List.mem_filter.mp hmem).2)

theorem readEntry_recordToJson (r : ResultRecord) :
    readEntry (recordToJson r) = some (r.id, r.query, r.response) := rfl

theorem readEntries_map (results : List ResultRecord) :
    readEntries (results.map recordToJson)
      = some (results.map (fun r => (r.id, r.query, r.response))) := by
  induction results with
  | nil => rfl
  | cons r rs ih =>
    simp only [List.map_cons, readEntries, readEntry_recordToJson, ih]

/-- C7: writing a ResultBatch through the Sink and re-reading the
structured-record (JSON) artifact yields exactly the ordered sequence of
`(id, query, response)` triples that was written. -/
theorem sink_json_roundtrip (output_path : PathModel)
    (results : List ResultRecord) :
    readJsonResults ((write_results output_path results).jsonData)
      = some (results.map (fun r => (r.id, r.query, r.response))) :=
  readEntries_map results

/-- C8: the tabular artifact sits at the same logical path with extension
".csv" (differing from any non-".csv" extension of the structured-record
artifact, in particular from the ".json" the Runner uses), and its rows are
the header `id,query,response` followed by exactly one row per
ResultRecord, in batch order. -/
theorem sink_tabular_artifact (output_path : PathModel)
    (results : List ResultRecord) :
    (write_results output_path results).csvPath
        = with_suffix output_path ".csv" ∧
    (write_results output_path results).csvPath.stem = output_path.stem ∧
    (write_results output_path results).csvPath.suffix = ".csv" ∧
    (output_path.suffix ≠ ".csv" →
      (write_results output_path results).csvPath ≠ output_path) ∧
    (write_results output_path results).csvRows
      = ["id", "query", "response"] ::
          results.map (fun r => [r.id, r.query, r.response]) ∧
    (write_results output_path results).csvRows.length
      = results.length + 1 := by
  refine ⟨rfl, rfl, rfl, ?_, rfl, by simp [write_results]⟩
  intro hsuf hEq
  apply hsuf
  rw [← hEq]
  rfl

/-- Witness for C8: a timestamped ".json" output path and one record. -/
theorem sink_tabular_artifact_witness :
    (write_results wPath wResults).csvPath = with_suffix wPath ".csv" ∧
    (write_results wPath wResults).csvPath ≠ wPath ∧
    (write_results wPath wResults).csvRows
      = ["id", "query", "response"] ::
          wResults.map (fun r => [r.id, r.query, r.response]) := by
  have h := sink_tabular_artifact wPath wResults
  exact ⟨h.1, h.2.2.2.1 (by decide), h.2.2.2.2.1⟩

/-- C9: whatever the adapter does (success, missing assistant turn, or a
raised fault), the dispatched ResultRecord keeps the id and the query of
the input record unchanged. -/
theorem dispatch_preserves_id_query (A : Adapter) (query_id query : String) :
    (process_query A query_id query).id = query_id ∧
    (process_query A query_id query).query = query :=
  ⟨process_query_id A query_id query, process_query_query A query_id query⟩

/-- C10: when the adapter returns an empty conversation, the emptiness
guard short-circuits before any final-turn indexing: the dispatch
completes normally with the sentinel response (no IndexError-derived
error string is produced). -/
theorem empty_conversation_sentinel (A : Adapter) (query_id query : String)
    (hA : A (initial_messages query) = Except.ok []) :
    process_query A query_id query
      = { id := query_id, query := query,
          response := "Error: No assistant reply found" } := by
  simp [process_query, hA]

/-- Witness for C10: a concrete adapter returning the empty conversation. -/
theorem empty_conversation_sentinel_witness :
    process_query wAdapterEmpty "3" "keto snack"
      = { id := "3", query := "keto snack",
          response := "Error: No assistant reply found" } :=
  empty_conversation_sentinel wAdapterEmpty "3" "keto snack" rfl

end BulkTest
